import Mathlib

/-!
Verification of the root layout component of the Snoqualmie Tourism Virtual
Assistant web application (`src/app/layout.tsx`).

The rendered document is modelled as a tree of nodes. External leaf components
(the notification host `Toaster` from the `sonner` library and the
self-contained `Navbar`) are modelled as opaque leaf constructors carrying
exactly the props the layout passes to them. The font class provided by the
external font-loading facility (`GeistSans.className`) is a parameter of the
render function.
-/

/-- Rendered tree node: an element with a tag, attributes and child nodes, a
text node, an empty (null) node, the notification host with its configuration
props, or the navigation bar. -/
inductive Node where
  | element (tag : String) (attrs : List (String × String)) (childNodes : List Node)
  | text (s : String)
  | null
  | toaster (position : String) (richColors : Bool)
  | navbar

/-- Tag of an element node, if any. -/
def tagOf : Node → Option String
  | .element t _ _ => some t
  | _ => none

/-- Attribute list of an element node; empty for non-elements. -/
def attrsOf : Node → List (String × String)
  | .element _ a _ => a
  | _ => []

/-- Child list of an element node; empty for non-elements. -/
def childNodesOf : Node → List Node
  | .element _ _ cs => cs
  | _ => []

mutual

/-- Concatenated text content of a node, in document order. -/
def textContent : Node → String
  | .text s => s
  | .element _ _ cs => textContentList cs
  | .null => ""
  | .toaster _ _ => ""
  | .navbar => ""

/-- Concatenated text content of a list of nodes. -/
def textContentList : List Node → String
  | [] => ""
  | n :: ns => textContent n ++ textContentList ns

end

/-- First child of the root tree whose tag is `body`. -/
def bodyOf (root : Node) : Option Node :=
  (childNodesOf root).find? (fun n => tagOf n == some "body")

/-- Children of the `body` element of the root tree. -/
def bodyChildren (root : Node) : List Node :=
  match bodyOf root with
  | some b => childNodesOf b
  | none => []

/-- Value of the `className` attribute of the `body` element of the root tree. -/
def bodyClassName (root : Node) : Option String :=
  (bodyOf root).bind (fun b => (attrsOf b).lookup "className")

/-- Deduplicate a list of strings keeping the first occurrence of each; the
first argument accumulates the strings already seen. -/
def dedupKeepFirst : List String → List String → List String
  | _, [] => []
  | seen, x :: xs =>
    if x ∈ seen then dedupKeepFirst seen xs
    else x :: dedupKeepFirst (x :: seen) xs

/-- Split a class string into its space-separated pieces. -/
def splitClasses (s : String) : List String :=
  (s.data.splitOn ' ').map String.mk

/-- Modelled from the spec: the class-name merge utility `cn` (imported from
the library module `lib/utils`, which is not among the supplied sources) is
described as "a class-name merge utility that concatenates and deduplicates
conditional class strings (treated as an opaque pure function:
merge(classNames...) -> string)". `cnTokens` computes the merged token list:
the inputs split on spaces, empty tokens dropped, duplicates removed. -/
def cnTokens (classNames : List String) : List String :=
  dedupKeepFirst [] ((classNames.flatMap splitClasses).filter (fun t => !(t == "")))

/-- Modelled from the spec: the merged class string returned by `cn` is the
merged token list joined with single spaces. -/
def cn (classNames : List String) : String :=
  String.intercalate " " (cnTokens classNames)

/-- Notification host node exactly as configured in the layout:
`<Toaster position="top-center" richColors />`. -/
def toasterNode : Node := .toaster "top-center" true

/-- Modelled from the spec: the navigation-bar component (module
`components/navbar`, not among the supplied sources) is "self-contained,
rendered with no props from this layer"; it is an opaque leaf node. -/
def navbarNode : Node := .navbar

/-- Shallow embedding of `RootLayout` from `src/app/layout.tsx`: an `html`
element with `lang="en"`, containing an empty `head` and a `body` whose class
string is `cn(fontClass, "antialiased dark")` and whose children are the
notification host, the navigation bar, and the passed-through children.
`fontClass` stands for the externally provided `GeistSans.className`. -/
def RootLayout (fontClass : String) (children : Node) : Node :=
  .element "html" [("lang", "en")]
    [ .element "head" [] []
    , .element "body" [("className", cn [fontClass, "antialiased dark"])]
        [toasterNode, navbarNode, children] ]

/-- Image reference object with a `url` field. -/
structure ImageRef where
  url : String

deriving instance DecidableEq for ImageRef

/-- Open Graph section of the metadata descriptor. -/
structure OpenGraph where
  images : List ImageRef

/-- Twitter section of the metadata descriptor. -/
structure TwitterMeta where
  card : String
  images : List ImageRef

/-- Shape of the exported metadata descriptor:
`{ title, description, openGraph.images, twitter.card, twitter.images }`. -/
structure Metadata where
  title : String
  description : String
  openGraph : OpenGraph
  twitter : TwitterMeta

/-- The metadata descriptor exported by `src/app/layout.tsx`, verbatim. -/
def metadata : Metadata :=
  { title := "Snoqualmie Tourism Virtual Assistant"
  , description := "The ultimate guide to Historic Downtown Snoqualmie."
  , openGraph :=
      { images := [{ url := "/og?title=Snoqualmie Tourism Virtual Assistant" }] }
  , twitter :=
      { card := "summary_large_image"
      , images := [{ url := "/og?title=Snoqualmie Tourism Virtual Assistant" }] } }

/-- Prefix under which the dynamically generated preview-image endpoint is
addressed, with its `title` query parameter. -/
def ogEndpoint : String := "/og?title="

/-- Title query value of a preview-image URL: `some v` when the URL is
`/og?title=` followed by `v`, `none` otherwise. -/
def titleQueryOf (u : String) : Option String :=
  if ogEndpoint.data.isPrefixOf u.data then
    some (String.mk (u.data.drop ogEndpoint.data.length))
  else none

/-- All `url` fields occurring in a metadata descriptor, in order. -/
def allImageUrls (m : Metadata) : List String :=
  m.openGraph.images.map ImageRef.url ++ m.twitter.images.map ImageRef.url

/-- C1: for every child content `c`, the body of the tree rendered by
`RootLayout` contains exactly three children, in order: the notification host,
the navigation bar, then `c` unchanged as the last child; and when the child is
the single text node "Hello", the last body child's text content is "Hello". -/
theorem rootLayout_body_structure (fontClass : String) (c : Node) :
    bodyChildren (RootLayout fontClass c) = [toasterNode, navbarNode, c] ∧
    (bodyChildren (RootLayout fontClass (Node.text "Hello"))).getLast?
      = some (Node.text "Hello") ∧
    textContent (Node.text "Hello") = "Hello" :=
  ⟨rfl, rfl, rfl⟩

/-- C2: the exported metadata descriptor's title is the literal string
"Snoqualmie Tourism Virtual Assistant"; `metadata` is a constant definition,
so the value is the same on every render and depends on no input. -/
theorem metadata_title_literal :
    metadata.title = "Snoqualmie Tourism Virtual Assistant" :=
  rfl

/-- C4: for every children input, the root element rendered by `RootLayout`
is the `html` element and carries the attribute `lang="en"`. -/
theorem rootLayout_lang_en (fontClass : String) (c : Node) :
    tagOf (RootLayout fontClass c) = some "html" ∧
    attrsOf (RootLayout fontClass c) = [("lang", "en")] ∧
    ("lang", "en") ∈ attrsOf (RootLayout fontClass c) :=
  ⟨rfl, rfl, List.mem_singleton.mpr rfl⟩

/-- C5: `RootLayout` is a total function (this definition is structurally
total, with no partiality or error branch), and with empty (null) children the
rendered body still contains the notification host and the navigation bar. -/
theorem rootLayout_empty_children_safe (fontClass : String) :
    (bodyOf (RootLayout fontClass Node.null)).isSome = true ∧
    toasterNode ∈ bodyChildren (RootLayout fontClass Node.null) ∧
    navbarNode ∈ bodyChildren (RootLayout fontClass Node.null) := by
  refine ⟨rfl, ?_, ?_⟩
  · show toasterNode ∈ [toasterNode, navbarNode, Node.null]
    exact List.mem_cons_self _ _
  · show navbarNode ∈ [toasterNode, navbarNode, Node.null]
    exact List.mem_cons_of_mem _ (List.mem_cons_self _ _)

/-- C6: `RootLayout` is deterministic and stateless: it is a pure function of
its arguments, so two invocations with equal children (and the same externally
supplied font class) render equal trees; no hidden state is read or written. -/
theorem rootLayout_deterministic (fontClass : String) (c₁ c₂ : Node)
    (h : c₁ = c₂) :
    RootLayout fontClass c₁ = RootLayout fontClass c₂ := by
  rw [h]

/-- Witness for C6 at concrete inputs. -/
theorem rootLayout_deterministic_witness :
    RootLayout "geist" Node.null = RootLayout "geist" Node.null :=
  rootLayout_deterministic "geist" Node.null Node.null rfl

/-- C7: in every tree rendered by `RootLayout`, the first body child is the
notification host configured with position "top-center" and richColors true;
the `toaster` constructor carries exactly these two configuration options, so
no other option is passed. -/
theorem rootLayout_toaster_config (fontClass : String) (c : Node) :
    (bodyChildren (RootLayout fontClass c)).head?
      = some (Node.toaster "top-center" true) :=
  rfl

/-- C8: the exported metadata descriptor has the shape enforced by the
`Metadata` structure (title and description strings, `openGraph.images` and
`twitter.images` lists of `{url}` objects, `twitter.card` string), and every
`url` field in it references the preview-image endpoint `/og` with a `title`
query parameter. -/
theorem metadata_shape_urls :
    metadata.openGraph.images.length = 1 ∧
    metadata.twitter.images.length = 1 ∧
    (allImageUrls metadata).all (fun u => (titleQueryOf u).isSome) = true :=
  ⟨rfl, rfl, by decide⟩

/-- C9: `openGraph.images` and `twitter.images` each contain exactly one
entry, both entries carry the identical url
"/og?title=Snoqualmie Tourism Virtual Assistant", that url's title query value
equals the descriptor's title field, and `twitter.card` is
"summary_large_image". -/
theorem metadata_images_consistent :
    metadata.openGraph.images.map ImageRef.url
      = ["/og?title=Snoqualmie Tourism Virtual Assistant"] ∧
    metadata.twitter.images.map ImageRef.url
      = metadata.openGraph.images.map ImageRef.url ∧
    titleQueryOf "/og?title=Snoqualmie Tourism Virtual Assistant"
      = some metadata.title ∧
    metadata.twitter.card = "summary_large_image" :=
  ⟨rfl, rfl, by decide, rfl⟩

/-- C10: the exported metadata descriptor's description is the literal string
"The ultimate guide to Historic Downtown Snoqualmie."; `metadata` is a
constant definition, so the value depends on no input. -/
theorem metadata_description_literal :
    metadata.description = "The ultimate guide to Historic Downtown Snoqualmie." :=
  rfl

/-- C3: for every children input, the class string of the body element
rendered by `RootLayout` is the class-name merge utility `cn` applied to the
font class and "antialiased dark", and the class token list produced by `cn`
consists of exactly three tokens — the font class, "antialiased" and "dark" —
so in particular it contains the "antialiased" token and the "dark" token.
The hypotheses say that the externally supplied font class is a single
nonempty class token distinct from the two static utility tokens. -/
theorem rootLayout_body_class_tokens (fontClass : String) (c : Node)
    (hTok : splitClasses fontClass = [fontClass])
    (hNe : fontClass ≠ "")
    (hA : fontClass ≠ "antialiased")
    (hD : fontClass ≠ "dark") :
    bodyClassName (RootLayout fontClass c)
      = some (cn [fontClass, "antialiased dark"]) ∧
    cnTokens [fontClass, "antialiased dark"]
      = [fontClass, "antialiased", "dark"] ∧
    "antialiased" ∈ cnTokens [fontClass, "antialiased dark"] ∧
    "dark" ∈ cnTokens [fontClass, "antialiased dark"] := by
  have hsplit : splitClasses "antialiased dark" = ["antialiased", "dark"] := by
    decide
  have hflat : ([fontClass, "antialiased dark"].flatMap splitClasses)
      = fontClass :: "antialiased" :: "dark" :: [] := by
    simp [List.flatMap_cons, List.flatMap_nil, hTok, hsplit]
  have heq : cnTokens [fontClass, "antialiased dark"]
      = [fontClass, "antialiased", "dark"] := by
    unfold cnTokens
    rw [hflat]
    simp [List.filter_cons, hNe, dedupKeepFirst, Ne.symm hA, Ne.symm hD]
  refine ⟨rfl, heq, ?_, ?_⟩
  · rw [heq]
    simp
  · rw [heq]
    simp

/-- Witness for C3 at a concrete font class and child. -/
theorem rootLayout_body_class_tokens_witness :
    bodyClassName (RootLayout "geist" Node.null)
      = some (cn ["geist", "antialiased dark"]) ∧
    cnTokens ["geist", "antialiased dark"] = ["geist", "antialiased", "dark"] ∧
    "antialiased" ∈ cnTokens ["geist", "antialiased dark"] ∧
    "dark" ∈ cnTokens ["geist", "antialiased dark"] :=
  rootLayout_body_class_tokens "geist" Node.null (by decide) (by decide)
    (by decide) (by decide)
